import Mathlib

/-!
Verification of the access-control backend's effect-execution core
(result algebra, command wrappers, query builder, transactional executor,
controller/repository orchestration) against its natural-language
specification.  Python code is shallowly embedded: dynamic values become
`PyObj`, raised exceptions become `Except` errors, object mutation becomes
explicit state passing.
-/

namespace AccessControl

/-- Dynamic Python value domain: the payloads, details and logs flowing
through the system.  `exc` is a raised-exception object (its `str()` message
and its `args` tuple). -/
inductive PyObj where
  | none
  | bool (b : Bool)
  | int (n : Int)
  | str (s : String)
  | tuple (xs : List PyObj)
  | list (xs : List PyObj)
  | dict (entries : List (String × PyObj))
  | exc (msg : String) (args : List PyObj)

/-- Python truthiness (`bool(x)`): None, False, 0, empty string and empty
containers are falsy; everything else is truthy. -/
def PyObj.truthy : PyObj → Bool
  | .none => false
  | .bool b => b
  | .int n => n != 0
  | .str s => s ≠ ""
  | .tuple xs => !xs.isEmpty
  | .list xs => !xs.isEmpty
  | .dict xs => !xs.isEmpty
  | .exc _ _ => true

/-- `isinstance(x, dict)`. -/
def PyObj.isDict : PyObj → Bool
  | .dict _ => true
  | _ => false

/-- Entries of a dict value (unused default for non-dicts). -/
def PyObj.asDict : PyObj → List (String × PyObj)
  | .dict d => d
  | _ => []

/-- Lookup of a key in an insertion-ordered association list, the embedding
of Python dict indexing / `.get`. -/
def dictLookup : List (String × PyObj) → String → Option PyObj
  | [], _ => Option.none
  | (k, v) :: rest, key => if k = key then some v else dictLookup rest key

/-- Embedding of the Python dict-literal merge `\x7b**a, **b\x7d`: keys of `a`
in their order, values overridden by `b` where present, followed by the
keys of `b` absent from `a`, in their order. -/
def dictUpdate (a b : List (String × PyObj)) : List (String × PyObj) :=
  a.map (fun kv =>
    match dictLookup b kv.1 with
    | some v => (kv.1, v)
    | Option.none => kv)
  ++ b.filter (fun kv => (dictLookup a kv.1).isNone)

/-- A Python exception: what `str(e)` returns and the raw `e.args`. -/
structure PyExc where
  msg : String
  args : List PyObj

/-- The tri-state result algebra of `core/commands/result.py`.  Field
`value` embeds the Python dataclass field `_value`; `error` is Failure's
critical-error flag.  Defaults in the Python constructors are
`details=None, log=None, error=False`. -/
inductive Result where
  | success (value : PyObj) (details : PyObj) (log : PyObj)
  | failure (value : PyObj) (details : PyObj) (log : PyObj) (error : Bool)
  | running (value : PyObj)

/-- `Success(v)` with the Python defaults. -/
def Success (v : PyObj) (details : PyObj := .none) (log : PyObj := .none) : Result :=
  .success v details log

/-- `Failure(v)` with the Python defaults. -/
def Failure (v : PyObj) (details : PyObj := .none) (log : PyObj := .none)
    (error : Bool := false) : Result :=
  .failure v details log error

/-- `Running(v)`. -/
def Running (v : PyObj) : Result := .running v

/-- The `value` property: returns the payload regardless of variant. -/
def Result.value : Result → PyObj
  | .success v _ _ => v
  | .failure v _ _ _ => v
  | .running v => v

/-- The `details` field (`None` for Running, which has no such field). -/
def Result.details : Result → PyObj
  | .success _ d _ => d
  | .failure _ d _ _ => d
  | .running _ => .none

/-- Failure's `error` flag (False elsewhere). -/
def Result.error : Result → Bool
  | .failure _ _ _ e => e
  | _ => false

/-- `is_success` property. -/
def Result.is_success : Result → Bool
  | .success _ _ _ => true
  | _ => false

/-- `is_failure` property. -/
def Result.is_failure : Result → Bool
  | .failure _ _ _ _ => true
  | _ => false

/-- `is_running` property. -/
def Result.is_running : Result → Bool
  | .running _ => true
  | _ => false

/-- The active variant tag of a Result. -/
inductive Tag where
  | success
  | failure
  | running
deriving DecidableEq

/-- Variant tag of a Result value. -/
def Result.tag : Result → Tag
  | .success _ _ _ => .success
  | .failure _ _ _ _ => .failure
  | .running _ => .running

/-- `Result.fold` of `result.py`, branch for branch:
`if isinstance(self, Success) and on_running is None: return on_success(...)`,
`elif isinstance(self, Running) and on_running is not None: return on_running(...)`,
`elif isinstance(self, Failure): return on_failure(...)`,
`else: raise ValueError("Unhandled state in fold")`.
A raised `ValueError` is embedded as `Except.error` with its message. -/
def Result.fold (r : Result) (on_success on_failure : PyObj → PyObj)
    (on_running : Option (PyObj → PyObj) := Option.none) : Except String PyObj :=
  match r, on_running with
  | .success v _ _, Option.none => .ok (on_success v)
  | .running v, some f => .ok (f v)
  | .failure v _ _ _, _ => .ok (on_failure v)
  | _, _ => .error "Unhandled state in fold"

/-- `Result.map` of `result.py`: `Success(func(v))` on Success,
`Running(func(v))` on Running, `Failure(self._value)` on Failure — each a
fresh construction with default `details`/`log`/`error`. -/
def Result.map (r : Result) (func : PyObj → PyObj) : Result :=
  match r with
  | .success v _ _ => Success (func v)
  | .running v => Running (func v)
  | .failure v _ _ _ => Failure v

/-- `Result.map_failure` of `result.py`. -/
def Result.map_failure (r : Result) (func : PyObj → PyObj) : Result :=
  match r with
  | .failure v _ _ _ => Failure (func v)
  | .running v => Running v
  | .success v _ _ => Success v

/-- A wrapped zero-argument operation of `command.py`, modelled by the
outcome of its single invocation: either the Result it returns, or the
exception it raises. -/
abbrev Op : Type := Except PyExc Result

/-- The state of a `Command` instance: the stored operation (`_function`)
and the last stored outcome (`result`). -/
structure Command where
  _function : Option Op := Option.none
  result : Option Result := Option.none

/-- `Command.execute` of `command.py`: optionally replace the stored
operation; raise `ValueError` (embedded as `Except.error`) when none is
available; run it, converting a raised exception `e` into `Failure(e)` —
the Failure payload is the exception object itself, `details`/`log`/`error`
left at their defaults.  Returns the updated instance and the Result that
is both stored and returned. -/
def Command.execute (c : Command) (function : Option Op := Option.none) :
    Except String (Command × Result) :=
  let f := match function with
    | some g => some g
    | Option.none => c._function
  match f with
  | Option.none => .error "Nenhuma função fornecida para execução do Command."
  | some op =>
    let res := match op with
      | .ok r => r
      | .error e => Failure (.exc e.msg e.args)
    .ok ({ _function := f, result := some res }, res)

/-- `AsyncCommand.execute_async` of `async_command.py`: same shape as
`Command.execute`, but a raised exception `e` becomes
`Failure(_value=str(e), details=e.args, log="Erro no AsyncCommand")`. -/
def AsyncCommand.execute_async (c : Command) (function : Option Op := Option.none) :
    Except String (Command × Result) :=
  let f := match function with
    | some g => some g
    | Option.none => c._function
  match f with
  | Option.none => .error "Nenhuma função fornecida para execução do AsyncCommand."
  | some op =>
    let res := match op with
      | .ok r => r
      | .error e => Failure (.str e.msg) (.tuple e.args)
          (.str "Erro no AsyncCommand")
    .ok ({ _function := f, result := some res }, res)

/-- A stream producer of `stream_command.py`, modelled by its observable
behaviour: the finite list of Result values it yields, followed either by
normal exhaustion (`fault = none`) or by a raised exception. -/
structure Producer where
  yields : List Result
  fault : Option PyExc

/-- The `async for` loop body of `execute_stream`: forward every produced
element; when the producer raises, yield one final `Failure(e)` wrapping
the exception object and stop. -/
def streamLoop : List Result → Option PyExc → List Result
  | [], Option.none => []
  | [], some e => [Failure (.exc e.msg e.args)]
  | r :: rest, fault => r :: streamLoop rest fault

/-- `StreamCommand.execute_stream`: optionally replace the stored producer,
raise `ValueError` when none is available, then run the forwarding loop. -/
def StreamCommand.execute_stream (stored : Option Producer)
    (stream : Option Producer := Option.none) : Except String (List Result) :=
  let f := match stream with
    | some p => some p
    | Option.none => stored
  match f with
  | Option.none => .error "Nenhuma função fornecida para execução do AsyncCommand."
  | some p => .ok (streamLoop p.yields p.fault)

/-- `QueryModel` of `models/query_model.py`.  `columns`, `condition` and
`values` are dynamic Python attributes; `query` is the derived statement. -/
structure QueryModel where
  table : String
  columns : PyObj := .none
  condition : PyObj := .none
  values : PyObj := .none
  query : Option String := Option.none

/-- `QueryModel.insert`: raise unless `values` is a dict (`isinstance`
check only — an empty dict passes); build
`INSERT INTO <table> (<cols>) VALUES (:<cols>)` over the dict keys. -/
def QueryModel.insert (m : QueryModel) : Except String QueryModel :=
  if !m.values.isDict then
    .error "values não é um Map (Obrigatório)"
  else
    let d := m.values.asDict
    let columns := String.intercalate ", " (d.map Prod.fst)
    let placeholders := String.intercalate ", " (d.map (fun kv => ":" ++ kv.1))
    .ok { m with
      query := some ("INSERT INTO " ++ m.table ++ " (" ++ columns ++ ") VALUES ("
        ++ placeholders ++ ")") }

/-- `QueryModel.update`: raise unless `self.values` is a truthy dict (the
WHERE data) and `new_query.values` is a dict (the SET data); build
`UPDATE <table> SET <k> = :set_<k>, ... WHERE <k> = :<k> AND ...` and
overwrite `self.values` with `\x7b**set_prefixed_new, **self.values\x7d`. -/
def QueryModel.update (m new_query : QueryModel) : Except String QueryModel :=
  if !m.values.truthy || !m.values.isDict then
    .error "Forneça um dicionário de condições em \x27values\x27 para a cláusula WHERE."
  else if !new_query.values.isDict then
    .error "Forneça um dicionário de dados a serem atualizados em \x27new_query.values\x27 para a cláusula SET."
  else
    let whereDict := m.values.asDict
    let newDict := new_query.values.asDict
    let set_clause := String.intercalate ", "
      (newDict.map (fun kv => kv.1 ++ " = :set_" ++ kv.1))
    let where_clause := String.intercalate " AND "
      (whereDict.map (fun kv => kv.1 ++ " = :" ++ kv.1))
    let new_values_prefixed := newDict.map (fun kv => ("set_" ++ kv.1, kv.2))
    .ok { m with
      query := some ("UPDATE " ++ m.table ++ " SET " ++ set_clause
        ++ " WHERE " ++ where_clause),
      values := .dict (dictUpdate new_values_prefixed whereDict) }

/-- The datastore collaborator behind `DatabaseCommand`
(`databases.Database`): each method is modelled by its outcome.  The three
statement runners receive the model's `query` string and `values`, as in
`database.fetch_one(query=query.query, values=query.values)`. -/
structure DbOracle where
  connectOutcome : Except PyExc Unit
  fetch_one : Option String → PyObj → Except PyExc PyObj
  fetch_all : Option String → PyObj → Except PyExc PyObj
  run_statement : Option String → PyObj → Except PyExc PyObj
  disconnectOutcome : Except PyExc Unit

/-- Mutable state of a `DatabaseCommand` instance: the `isconnected` flag,
instrumented with a counter of `_disconnect` invocations so that
release-exactly-once properties are expressible. -/
structure DbState where
  isconnected : Bool
  disconnectCalls : Nat

/-- `DatabaseCommand._connect_func`: try `database.connect()`; on success
set `isconnected` and return `Success("Conexão bem-sucedida")`; on a raised
exception clear `isconnected` and return
`Failure("Erro ao se conectar ao DB", details=str(e))`.  The wrapper
`_connect` runs this through `execute_async`, which is transparent here
because `_connect_func` never raises. -/
def DatabaseCommand.connect (db : DbOracle) (s : DbState) : DbState × Result :=
  match db.connectOutcome with
  | .ok _ => ({ s with isconnected := true }, Success (.str "Conexão bem-sucedida"))
  | .error e => ({ s with isconnected := false },
      Failure (.str "Erro ao se conectar ao DB") (.str e.msg))

/-- `DatabaseCommand._disconnect`: every invocation is counted; when
already disconnected it is a no-op `Success("DB já desconectado")`;
otherwise try `database.disconnect()`, clearing the flag on success and
returning `Failure("Erro ao desconectar do DB", details=str(e))` on a
raised exception. -/
def DatabaseCommand.disconnect (db : DbOracle) (s : DbState) : DbState × Result :=
  let s := { s with disconnectCalls := s.disconnectCalls + 1 }
  if !s.isconnected then
    (s, Success (.str "DB já desconectado"))
  else
    match db.disconnectOutcome with
    | .ok _ => ({ s with isconnected := false },
        Success (.str "Desconexão bem-sucedida"))
    | .error e => (s, Failure (.str "Erro ao desconectar do DB") (.str e.msg))

/-- `DatabaseCommand.execute_query`: connect; on a connect Failure return
`Failure("Erro ao conectar ao banco de dados", details=conn_result.value)`
at once; otherwise run the statement selected by `type_fetch`
("one" → fetch_one, "all" → fetch_all, anything else → execute), wrap its
outcome in `Success(data)` or
`Failure("Erro ao executar a query", details=str(e))`, and in both of
those paths run `_disconnect` (the `finally` block) before returning. -/
def DatabaseCommand.execute_query (db : DbOracle) (query : QueryModel)
    (type_fetch : Option String) (s : DbState) : DbState × Result :=
  let (s1, conn_result) := DatabaseCommand.connect db s
  if conn_result.is_failure then
    (s1, Failure (.str "Erro ao conectar ao banco de dados")
      conn_result.value)
  else
    let stmt :=
      if type_fetch = some "one" then db.fetch_one query.query query.values
      else if type_fetch = some "all" then db.fetch_all query.query query.values
      else db.run_statement query.query query.values
    match stmt with
    | .ok data =>
      let (s2, _) := DatabaseCommand.disconnect db s1
      (s2, Success data)
    | .error e =>
      let (s2, _) := DatabaseCommand.disconnect db s1
      (s2, Failure (.str "Erro ao executar a query") (.str e.msg))

/-- Modelled from the spec: the administrator level of
`PermissionEnum` (declared in `models/user_model.py`, which is not among
the sources; only the member names ADMINISTRADOR and DISCENTE are visible
at the call sites).  Its concrete value is immaterial to the claims. -/
def PermissionEnum.ADMINISTRADOR : PyObj := .str "administrador"

/-- Modelled from the spec: the profile-table name, loaded at runtime from
the YAML configuration (`DatabaseTables.perfis`); the configuration file
is not among the sources. -/
def DatabaseTables.perfis : String := "perfis"

/-- The pydantic `UserModel` (declared in the absent
`models/user_model.py`): its mutable `permission_level` attribute, and the
remaining set, non-None fields abstracted as a field map — exactly what
`model_dump(exclude_none=True, exclude_unset=True)` exposes of them. -/
structure UserModel where
  permission_level : PyObj := .none
  fields : List (String × PyObj) := []

/-- `True` exactly on `PyObj.none`. -/
def PyObj.isNone : PyObj → Bool
  | .none => true
  | _ => false

/-- `model_dump(exclude_none=True, exclude_unset=True)` of a `UserModel`:
the abstracted set fields plus `permission_level` when it is not None. -/
def UserModel.model_dump (u : UserModel) : List (String × PyObj) :=
  u.fields ++ (if u.permission_level.isNone then [] else
    [("permission_level", u.permission_level)])

/-- `dict(x)` over a fetched row: a TypeError (embedded as `Except.error`)
unless the value is a mapping. -/
def pyDictOf : PyObj → Except String (List (String × PyObj))
  | .dict d => .ok d
  | _ => .error "TypeError: cannot convert to dict"

/-- Python `x > 0` on the result of `dict.get("total")`: defined on ints
and bools, a TypeError on None and everything else. -/
def pyGtZero : Option PyObj → Except String Bool
  | some (.int n) => .ok (decide (0 < n))
  | some (.bool b) => .ok b
  | _ => .error "TypeError: unorderable with int"

/-- `ApiRepository.user_is_admin`: first overwrite the argument's
`permission_level` with `PermissionEnum.ADMINISTRADOR`, then build the
count query from `model_dump` of the mutated object and hand it to the
datastore (modelled by `count`, the outcome of
`self.db.count(query)`).  Returns the mutated `UserModel` (the caller's
object), the query that was built, and the call's outcome — `Except.error`
marks an uncaught raise inside the method. -/
def ApiRepository.user_is_admin (count : QueryModel → Result) (user_data : UserModel) :
    UserModel × QueryModel × Except String Result :=
  let user_data := { user_data with permission_level := PermissionEnum.ADMINISTRADOR }
  let query : QueryModel :=
    { table := DatabaseTables.perfis, values := .dict user_data.model_dump }
  let result := count query
  if result.is_failure then
    (user_data, query, .ok (Failure (.str "Erro ao verificar permissões do usuário")
      result.value))
  else
    (user_data, query,
      match pyDictOf result.value with
      | .error e => .error e
      | .ok d =>
        match pyGtZero (dictLookup d "total") with
        | .error e => .error e
        | .ok true => .ok (Success (.bool true) .none (.str "Usuário é um administrador"))
        | .ok false => .ok (Success (.bool false) .none (.str "Usuario não é um administrador")))

/-- `ApiController.isAdmin`, as a function of the outcome of
`self.api_repository.user_is_admin(admin_data)`:
a Failure outcome becomes
`Failure("Erro ao verificar se o usuario é admin ...", details=result.value)`;
a truthy value becomes `Success(result.value, log="Usuario autorizado ...")`;
otherwise `Failure(result.value, log="Usuario não autorizado ...")`. -/
def ApiController.isAdmin (repo_result : Result) : Result :=
  if repo_result.is_failure then
    Failure (.str "Erro ao verificar se o usuario é admin ...")
      repo_result.value
  else if repo_result.value.truthy then
    Success repo_result.value .none (.str "Usuario autorizado ...")
  else
    Failure repo_result.value .none (.str "Usuario não autorizado ...")

/-- `ApiController.delete_user`, as a function of the repository oracles:
`repo_admin` is the outcome of `user_is_admin` inside `isAdmin`,
`delete_outcome` the outcome of `delete_user_table` if it is reached.  The
returned Bool records whether `delete_user_table` was invoked.  The guard
is `if not auth.value:` — Python truthiness of the isAdmin payload. -/
def ApiController.delete_user (repo_admin : Result) (delete_outcome : Result) :
    Result × Bool :=
  let auth := ApiController.isAdmin repo_admin
  if !auth.value.truthy then
    (Failure (.str "Usuario não autorizado") auth.value, false)
  else
    let result := delete_outcome
    if result.is_failure then
      (Failure (.str "Erro ao deletar usuario ...") result.value, true)
    else
      (Success .none .none (.str "Usuario deletado com sucesso ..."), true)

/-- `ApiController.update_user`, as a function of the repository oracles;
the returned Bool records whether `update_user_table` was invoked.  Same
`if not auth.value:` guard as `delete_user`. -/
def ApiController.update_user (repo_admin : Result) (update_outcome : Result) :
    Result × Bool :=
  let auth := ApiController.isAdmin repo_admin
  if !auth.value.truthy then
    (Failure (.str "Usuario não autorizado") auth.value, false)
  else
    let result := update_outcome
    if result.is_failure then
      (Failure (.str "Erro ao atualizar usuario ...") result.value, true)
    else
      (Success .none .none (.str "Usuario atualizado com sucesso ..."), true)

/-- Outcomes of the collaborators driven by the user-registration saga
`ApiController.register_user_db`, in call order: the admin check
(`api_repository.user_is_admin`), the biometric capture
(`face_service.get_first_face_encoding_async`), the persistence
(`api_repository.insert_user_table`), the admin-record lookup
(`api_repository.find_user`) and the audit entry
(`register_historic_from_model`). -/
structure RegisterEnv where
  adminResult : Result
  encodingResult : Result
  insertResult : Result
  findResult : Result
  historicResult : Result

/-- Which collaborators `register_user_db` actually invoked. -/
structure RegisterCalls where
  adminCheck : Bool := false
  faceCapture : Bool := false
  insertUser : Bool := false
  findUser : Bool := false
  registerHistoric : Bool := false
deriving DecidableEq

/-- `ApiController.register_user_db` of `controllers/api_controller.py`:
the emitted async-generator sequence, step for step, together with the
record of which collaborators were invoked.  Each guard `yield Failure(…);
return` ends the sequence. -/
def ApiController.register_user_db (env : RegisterEnv) : List Result × RegisterCalls :=
  let out := [Running (.str "Iniciando registro ...")]
  let calls : RegisterCalls := { adminCheck := true }
  let is_admin := env.adminResult
  if is_admin.is_failure then
    (out ++ [Failure (.str "Acesso Negado ao Usuario!") is_admin.value], calls)
  else if !is_admin.value.truthy then
    (out ++ [Failure (.str "Acesso Negado ao Usuario!") is_admin.value], calls)
  else
    let out := out ++ [Running (.str "iniciando Coleta do rosto ...")]
    let calls := { calls with faceCapture := true }
    let get_encoding := env.encodingResult
    if get_encoding.is_failure then
      (out ++ [Failure (.str "Erro ao coletar o rosto") get_encoding.value], calls)
    else
      let out := out ++ [Running (.str "Rosto coletado com sucesso")]
      let calls := { calls with insertUser := true }
      let db_result := env.insertResult
      if db_result.is_failure then
        (out ++ [Failure (.str "erro ao registrar o usuario ...")
          db_result.value], calls)
      else
        let calls := { calls with findUser := true }
        let db_result_his := env.findResult
        if db_result_his.is_failure then
          (out ++ [Failure (.str "Erro ao registrar o historico ...")
            db_result_his.value], calls)
        else
          let calls := { calls with registerHistoric := true }
          let result_his := env.historicResult
          if result_his.is_failure then
            (out ++ [Failure (.str "Erro ao registrar o historico ...")
              result_his.value], calls)
          else
            (out ++ [Success (.str "Usuario registrado com sucesso ...")
              db_result.value], calls)

/-! Lemmas about association-list lookup and the Python dict merge. -/

theorem dictLookup_append (a b : List (String × PyObj)) (k : String) :
    dictLookup (a ++ b) k =
      match dictLookup a k with
      | some v => some v
      | Option.none => dictLookup b k := by
  induction a with
  | nil => simp [dictLookup]
  | cons kv rest ih =>
    obtain ⟨k1, v1⟩ := kv
    by_cases h : k1 = k
    · simp [dictLookup, h]
    · simp [dictLookup, h, ih]

theorem dictLookup_map_override (a b : List (String × PyObj)) (k : String) :
    dictLookup (a.map (fun kv =>
      match dictLookup b kv.1 with
      | some v => (kv.1, v)
      | Option.none => kv)) k =
      match dictLookup a k with
      | Option.none => Option.none
      | some w =>
        match dictLookup b k with
        | some v => some v
        | Option.none => some w := by
  induction a with
  | nil => simp [dictLookup]
  | cons kv rest ih =>
    obtain ⟨k1, v1⟩ := kv
    by_cases h : k1 = k
    · subst h
      cases hb : dictLookup b k1 <;> simp [dictLookup, hb]
    · cases hb : dictLookup b k1 <;> simp [dictLookup, h, hb, ih]

theorem dictLookup_filter_of_pred (b : List (String × PyObj)) (p : String → Bool)
    (k : String) (hp : p k = true) :
    dictLookup (b.filter (fun kv => p kv.1)) k = dictLookup b k := by
  induction b with
  | nil => simp
  | cons kv rest ih =>
    obtain ⟨k1, v1⟩ := kv
    by_cases h : k1 = k
    · subst h; simp [dictLookup, hp]
    · cases hpk1 : p k1 <;> simp [dictLookup, h, hpk1, ih]

theorem dictLookup_filter_none (b : List (String × PyObj))
    (p : (String × PyObj) → Bool) (k : String)
    (h : dictLookup b k = Option.none) :
    dictLookup (b.filter p) k = Option.none := by
  induction b with
  | nil => simp [dictLookup]
  | cons kv rest ih =>
    obtain ⟨k1, v1⟩ := kv
    by_cases hk : k1 = k
    · subst hk; simp [dictLookup] at h
    · have h' : dictLookup rest k = Option.none := by
        simpa [dictLookup, hk] using h
      cases hp : p (k1, v1) <;> simp [dictLookup, hk, hp, ih h']

/-- In the merge `\x7b**a, **b\x7d`, every key of `b` maps to its `b`
value: the dict merged second takes precedence on key collision. -/
theorem dictUpdate_lookup_right (a b : List (String × PyObj)) (k : String)
    (v : PyObj) (h : dictLookup b k = some v) :
    dictLookup (dictUpdate a b) k = some v := by
  unfold dictUpdate
  rw [dictLookup_append]
  cases ha : dictLookup a k with
  | some w =>
    rw [dictLookup_map_override]
    simp [ha, h]
  | none =>
    rw [dictLookup_map_override]
    simp only [ha]
    have := dictLookup_filter_of_pred b (fun key => (dictLookup a key).isNone) k
      (by simp [ha])
    simpa [this] using h

/-- In the merge `\x7b**a, **b\x7d`, a key absent from `b` keeps its `a`
binding. -/
theorem dictUpdate_lookup_left (a b : List (String × PyObj)) (k : String)
    (h : dictLookup b k = Option.none) :
    dictLookup (dictUpdate a b) k = dictLookup a k := by
  unfold dictUpdate
  rw [dictLookup_append]
  cases ha : dictLookup a k with
  | some w =>
    rw [dictLookup_map_override]
    simp [ha, h]
  | none =>
    rw [dictLookup_map_override]
    simp only [ha]
    exact dictLookup_filter_none b _ k h

/-! Claim theorems. -/

/-- C2: the claim says `fold` is total whenever handlers for the active
variant are supplied — in particular that folding a Success with all three
handlers returns `on_success` applied to the payload — and that the only
raising case is a Running folded without `on_running`.  The code disagrees
on the Success case: its first branch requires `on_running is None`, so a
Success folded with an `on_running` handler falls through every branch and
raises `ValueError("Unhandled state in fold")`, contradicting `fold`'s own
docstring.  This theorem evaluates the embedded `fold` on all six
variant/handler combinations, exhibiting the divergence in the first
conjunct. -/
theorem C2_fold_success_with_running_handler_raises
    (v d l : PyObj) (e : Bool) (hS hF hR : PyObj → PyObj) :
    (Result.success v d l).fold hS hF (some hR) = .error "Unhandled state in fold" ∧
    (Result.success v d l).fold hS hF Option.none = .ok (hS v) ∧
    (Result.running v).fold hS hF (some hR) = .ok (hR v) ∧
    (Result.running v).fold hS hF Option.none = .error "Unhandled state in fold" ∧
    (Result.failure v d l e).fold hS hF (some hR) = .ok (hF v) ∧
    (Result.failure v d l e).fold hS hF Option.none = .ok (hF v) :=
  ⟨rfl, rfl, rfl, rfl, rfl, rfl⟩

/-- C2 witness: the divergence at the concrete failing input
`Success("x").fold(on_success, on_failure, on_running)`. -/
theorem C2_fold_witness :
    (Result.success (.str "x") .none .none).fold (fun v => v) (fun v => v)
      (some (fun v => v)) = .error "Unhandled state in fold" :=
  (C2_fold_success_with_running_handler_raises (.str "x") .none .none false
    (fun v => v) (fun v => v) (fun v => v)).1

/-- C3 counterexample: `map` on a Failure does not return an unchanged
Failure — the code rebuilds `Failure(self._value)`, so a Failure carrying
details, a log and a set critical flag loses all three under the identity
function. -/
theorem C3_counterexample :
    (Result.failure (.str "e") (.str "d") (.str "l") true).map (fun v => v) ≠
      Result.failure (.str "e") (.str "d") (.str "l") true := by
  intro h
  rw [show (Result.failure (.str "e") (.str "d") (.str "l") true).map (fun v => v)
      = Result.failure (.str "e") .none .none false from rfl] at h
  injection h with h1 h2 h3 h4
  exact Bool.noConfusion h4

/-- C3 (amended): `map(f)` on a Failure keeps the payload but resets
`details`, `log` and the critical/error flag to their constructor defaults
(None, None, False); on Success and Running it returns the same variant
with `f` applied to the payload (Success's `details`/`log` likewise reset);
the variant tag is preserved in every case. -/
theorem C3_map_preserves_tag_resets_failure_fields
    (f : PyObj → PyObj) (v d l : PyObj) (e : Bool) (r : Result) :
    (Result.failure v d l e).map f = Result.failure v .none .none false ∧
    (Result.success v d l).map f = Result.success (f v) .none .none ∧
    (Result.running v).map f = Result.running (f v) ∧
    (r.map f).tag = r.tag := by
  refine ⟨rfl, rfl, rfl, ?_⟩
  cases r <;> rfl

/-- C4 counterexample: `Command.execute` does not convert a raised fault
into a `Failure` carrying the fault's message as value and its raw
arguments as details — it stores `Failure(e)`, whose payload is the
exception object itself and whose details are the default None. -/
theorem C4_counterexample :
    Command.execute {} (some (.error ⟨"boom", [.str "boom"]⟩)) =
      .ok ({ _function := some (.error ⟨"boom", [.str "boom"]⟩),
             result := some (Failure (.exc "boom" [.str "boom"])) },
           Failure (.exc "boom" [.str "boom"])) ∧
    Failure (.exc "boom" [.str "boom"]) ≠
      Failure (.str "boom") (.tuple [.str "boom"]) := by
  refine ⟨rfl, ?_⟩
  intro h
  injection h with h1 h2 h3 h4
  exact PyObj.noConfusion h1

/-- C4 (amended): for every raising wrapped operation, neither wrapper
re-raises.  `AsyncCommand.execute_async` returns and stores a Failure
whose value is `str(e)`, whose details are the raw `e.args` and whose log
is "Erro no AsyncCommand", as the claim says; `Command.execute`, however,
returns and stores `Failure(e)` — the exception object itself as the
payload, with default (None) details. -/
theorem C4_fault_conversion (c : Command) (e : PyExc) :
    Command.execute c (some (.error e)) =
      .ok ({ _function := some (.error e),
             result := some (Failure (.exc e.msg e.args)) },
           Failure (.exc e.msg e.args)) ∧
    AsyncCommand.execute_async c (some (.error e)) =
      .ok ({ _function := some (.error e),
             result := some (Failure (.str e.msg) (.tuple e.args)
               (.str "Erro no AsyncCommand")) },
           Failure (.str e.msg) (.tuple e.args)
             (.str "Erro no AsyncCommand")) :=
  ⟨rfl, rfl⟩

/-- C4 witness: the amended behaviour at a concrete raising operation. -/
theorem C4_fault_conversion_witness :
    Command.execute {} (some (.error ⟨"x", []⟩)) =
      .ok ({ _function := some (.error ⟨"x", []⟩),
             result := some (Failure (.exc "x" [])) },
           Failure (.exc "x" [])) :=
  (C4_fault_conversion {} ⟨"x", []⟩).1

/-- C5: a producer that yields a prefix of Result values and then raises
makes `execute_stream` emit exactly that prefix, unmodified and in order,
followed by exactly one final synthetic Failure wrapping the fault, and
the sequence ends there — the spec's example instance `Running(a),
Running(b), raise` is the case `pre = [Running a, Running b]`. -/
theorem C5_stream_fault_appends_one_failure
    (stored : Option Producer) (pre : List Result) (e : PyExc) :
    StreamCommand.execute_stream stored (some ⟨pre, some e⟩) =
      .ok (pre ++ [Failure (.exc e.msg e.args)]) := by
  simp only [StreamCommand.execute_stream]
  congr 1
  induction pre with
  | nil => rfl
  | cons r rest ih => simp [streamLoop, ih]

/-- C6: when the admin check reports a non-admin principal
(`Success(False)` from `user_is_admin`, whatever its details and log), the
registration saga emits exactly
`[Running("Iniciando registro ..."), Failure("Acesso Negado ao Usuario!")]`
and stops: biometric capture, persistence, lookup and audit are never
invoked (the claim quotes the two literals elliptically). -/
theorem C6_register_denied_for_non_admin
    (d l : PyObj) (enc ins fnd his : Result) :
    ApiController.register_user_db
        ⟨Result.success (.bool false) d l, enc, ins, fnd, his⟩ =
      ([Running (.str "Iniciando registro ..."),
        Failure (.str "Acesso Negado ao Usuario!") (.bool false)],
       { adminCheck := true, faceCapture := false, insertUser := false,
         findUser := false, registerHistoric := false }) :=
  rfl

/-- C8 counterexample: an empty values map does not raise —
`insert` only checks `isinstance(self.values, dict)`, which an empty dict
passes, so the build succeeds with empty column and placeholder lists. -/
theorem C8_counterexample :
    QueryModel.insert ⟨"users", .none, .none, .dict [], Option.none⟩ =
      .ok ⟨"users", .none, .none, .dict [],
        some "INSERT INTO users () VALUES ()"⟩ ∧
    QueryModel.insert ⟨"users", .none, .none, .dict [], Option.none⟩ ≠
      .error "values não é um Map (Obrigatório)" := by
  refine ⟨rfl, ?_⟩
  intro h
  exact Except.noConfusion h

/-- C8 (amended): `insert` raises the build error exactly when `values` is
not a dict (absent/None included); for every dict — the empty dict
included — it builds `INSERT INTO <table> (<cols>) VALUES (:<cols>)` over
exactly the keys of the map, the empty map yielding
`INSERT INTO <table> () VALUES ()` rather than an error. -/
theorem C8_insert_requires_dict
    (t : String) (cols cond : PyObj) (q0 : Option String)
    (d : List (String × PyObj)) (xs : List PyObj) :
    QueryModel.insert ⟨t, cols, cond, .dict d, q0⟩ =
      .ok ⟨t, cols, cond, .dict d,
        some ("INSERT INTO " ++ t ++ " ("
          ++ String.intercalate ", " (d.map Prod.fst) ++ ") VALUES ("
          ++ String.intercalate ", " (d.map (fun kv => ":" ++ kv.1)) ++ ")")⟩ ∧
    QueryModel.insert ⟨t, cols, cond, .none, q0⟩ =
      .error "values não é um Map (Obrigatório)" ∧
    QueryModel.insert ⟨t, cols, cond, .list xs, q0⟩ =
      .error "values não é um Map (Obrigatório)" :=
  ⟨rfl, rfl, rfl⟩

theorem disconnect_increments (db : DbOracle) (s : DbState) :
    (DatabaseCommand.disconnect db s).1.disconnectCalls = s.disconnectCalls + 1 := by
  simp only [DatabaseCommand.disconnect]
  split
  · rfl
  · cases db.disconnectOutcome <;> rfl

/-- C1 counterexample: when the connect step fails, `execute_query`
returns the wrapping Failure before entering the try/finally block, so
`_disconnect` is invoked zero times — not exactly once as claimed. -/
theorem C1_counterexample :
    (DatabaseCommand.execute_query
        ⟨.error ⟨"down", []⟩, fun _ _ => .ok .none, fun _ _ => .ok .none,
         fun _ _ => .ok .none, .ok ()⟩
        ⟨"users", .none, .none, .none, Option.none⟩ Option.none
        ⟨false, 0⟩).1.disconnectCalls ≠ 1 := by
  intro h
  rw [show (DatabaseCommand.execute_query
      ⟨.error ⟨"down", []⟩, fun _ _ => .ok .none, fun _ _ => .ok .none,
       fun _ _ => .ok .none, .ok ()⟩
      ⟨"users", .none, .none, .none, Option.none⟩ Option.none
      ⟨false, 0⟩).1.disconnectCalls = 0 from rfl] at h
  exact Nat.noConfusion h

/-- C1 (amended): per `execute_query` call, `_disconnect` is invoked
exactly once on the statement-fault and success paths (the try/finally
block), but zero times when the connect step fails: that path returns
`Failure("Erro ao conectar ao banco de dados", details=conn_result.value)`
before the try block, leaving the connection flag false and the disconnect
count untouched. -/
theorem C1_disconnect_once_unless_connect_fails
    (f1 f2 f3 : Option String → PyObj → Except PyExc PyObj)
    (dOut : Except PyExc Unit) (q : QueryModel) (tf : Option String) (b : Bool) :
    (DatabaseCommand.execute_query ⟨.ok (), f1, f2, f3, dOut⟩ q tf
      ⟨b, 0⟩).1.disconnectCalls = 1 ∧
    ∀ e : PyExc,
      DatabaseCommand.execute_query ⟨.error e, f1, f2, f3, dOut⟩ q tf ⟨b, 0⟩ =
        (⟨false, 0⟩, Failure (.str "Erro ao conectar ao banco de dados")
          (.str "Erro ao se conectar ao DB")) := by
  refine ⟨?_, fun e => rfl⟩
  simp only [DatabaseCommand.execute_query, DatabaseCommand.connect]
  cases hstmt : (if tf = some "one" then f1 q.query q.values
    else if tf = some "all" then f2 q.query q.values
    else f3 q.query q.values) with
  | ok data => simp [hstmt, Result.is_failure, Success, disconnect_increments]
  | error e => simp [hstmt, Result.is_failure, Success, disconnect_increments]

/-- C7: for a WHERE model with a non-empty values dict and a new-data
model with a non-empty values dict, `update` builds
`UPDATE <table> SET <k> = :set_<k>, ... WHERE <k> = :<k> AND ...` and
leaves the model's bind map equal to the Python merge
`\x7b**set_prefixed_new, **where_values\x7d`; since the WHERE values are
merged second, every WHERE key keeps its WHERE value on collision (second
conjunct). -/
theorem C7_update_builds_statement_and_merged_binds
    (m nq : QueryModel) (w n : List (String × PyObj))
    (hm : m.values = .dict w) (hw : w ≠ [])
    (hn : nq.values = .dict n) (_hne : n ≠ []) :
    QueryModel.update m nq =
      .ok { m with
        query := some ("UPDATE " ++ m.table ++ " SET "
          ++ String.intercalate ", " (n.map (fun kv => kv.1 ++ " = :set_" ++ kv.1))
          ++ " WHERE "
          ++ String.intercalate " AND " (w.map (fun kv => kv.1 ++ " = :" ++ kv.1))),
        values := .dict (dictUpdate (n.map (fun kv => ("set_" ++ kv.1, kv.2))) w) } ∧
    ∀ (k : String) (v : PyObj), dictLookup w k = some v →
      dictLookup (dictUpdate (n.map (fun kv => ("set_" ++ kv.1, kv.2))) w) k = some v := by
  constructor
  · have hwE : w.isEmpty = false := by
      cases w with
      | nil => exact absurd rfl hw
      | cons a t => rfl
    unfold QueryModel.update
    rw [hm, hn]
    simp [PyObj.truthy, PyObj.isDict, PyObj.asDict, hwE]
  · intro k v hkv
    exact dictUpdate_lookup_right _ _ _ _ hkv

/-- C7 witness: the spec's own example —
`QueryModel(table="users", values=\x7b"id":"1"\x7d).update(QueryModel(values=\x7b"name":"Bob"\x7d))`
produces `UPDATE users SET name = :set_name WHERE id = :id` with binds
`\x7b"set_name":"Bob", "id":"1"\x7d`. -/
theorem C7_update_witness :
    QueryModel.update ⟨"users", .none, .none, .dict [("id", .str "1")], Option.none⟩
        ⟨"users", .none, .none, .dict [("name", .str "Bob")], Option.none⟩ =
      .ok ⟨"users", .none, .none,
        .dict [("set_name", .str "Bob"), ("id", .str "1")],
        some "UPDATE users SET name = :set_name WHERE id = :id"⟩ ∧
    dictLookup [("set_name", .str "Bob"), ("id", .str "1")] "id" = some (.str "1") := by
  have h := C7_update_builds_statement_and_merged_binds
    ⟨"users", .none, .none, .dict [("id", .str "1")], Option.none⟩
    ⟨"users", .none, .none, .dict [("name", .str "Bob")], Option.none⟩
    [("id", .str "1")] [("name", .str "Bob")]
    rfl (List.cons_ne_nil _ _) rfl (List.cons_ne_nil _ _)
  exact ⟨h.1.trans rfl, rfl⟩

/-- C9 counterexample: when `isAdmin` returns the datastore-error Failure,
its payload is the non-empty (hence truthy) message string, so the `if not
auth.value:` guard does not fire and both mutations are attempted — the
recorded invocation flag is `true` even though `isAdmin` returned a
Failure. -/
theorem C9_counterexample :
    (ApiController.isAdmin
      (Result.failure (.str "db down") .none .none false)).is_failure = true ∧
    (ApiController.delete_user (Result.failure (.str "db down") .none .none false)
      (Success (.int 1))).2 = true ∧
    (ApiController.update_user (Result.failure (.str "db down") .none .none false)
      (Success (.int 1))).2 = true :=
  ⟨rfl, rfl, rfl⟩

/-- C9 (amended): in `delete_user` and `update_user` the mutation is
executed precisely when the payload of the `isAdmin` result is truthy.  A
domain-rejection Failure (payload `False`) therefore blocks the mutation
and yields the unauthorized Failure, but a datastore-error Failure — whose
payload is the non-empty message string — does not block it. -/
theorem C9_mutation_guarded_by_truthiness (rA dOut uOut : Result) :
    (ApiController.delete_user rA dOut).2 = (ApiController.isAdmin rA).value.truthy ∧
    (ApiController.update_user rA uOut).2 = (ApiController.isAdmin rA).value.truthy ∧
    ∀ d l : PyObj,
      ApiController.delete_user (Result.success (.bool false) d l) dOut =
        (Failure (.str "Usuario não autorizado") (.bool false), false) ∧
      ApiController.update_user (Result.success (.bool false) d l) uOut =
        (Failure (.str "Usuario não autorizado") (.bool false), false) := by
  refine ⟨?_, ?_, fun d l => ⟨rfl, rfl⟩⟩
  · simp only [ApiController.delete_user]
    cases h : (ApiController.isAdmin rA).value.truthy
    · simp [h]
    · simp only [h, Bool.not_true, Bool.false_eq_true, if_false]
      split <;> rfl
  · simp only [ApiController.update_user]
    cases h : (ApiController.isAdmin rA).value.truthy
    · simp [h]
    · simp only [h, Bool.not_true, Bool.false_eq_true, if_false]
      split <;> rfl

/-- C10: every call to `user_is_admin` overwrites the caller's
`permission_level` with the administrator value before building the count
query — the mutated object is what the call hands back in every outcome
branch (Success, Failure or an uncaught raise), and the built query's
binds carry the administrator value whenever the remaining fields do not
themselves bind that key. -/
theorem C10_user_is_admin_mutates_permission
    (count : QueryModel → Result) (u : UserModel) :
    (ApiRepository.user_is_admin count u).1.permission_level
      = PermissionEnum.ADMINISTRADOR ∧
    (dictLookup u.fields "permission_level" = Option.none →
      dictLookup ((ApiRepository.user_is_admin count u).2.1.values.asDict)
        "permission_level" = some PermissionEnum.ADMINISTRADOR) := by
  constructor
  · have h1 : (ApiRepository.user_is_admin count u).1 =
        { u with permission_level := PermissionEnum.ADMINISTRADOR } := by
      simp only [ApiRepository.user_is_admin]
      split <;> rfl
    rw [h1]
  · intro hfree
    have hq : (ApiRepository.user_is_admin count u).2.1 =
        { table := DatabaseTables.perfis,
          values := .dict (UserModel.model_dump
            { u with permission_level := PermissionEnum.ADMINISTRADOR }) } := by
      simp only [ApiRepository.user_is_admin]
      split <;> rfl
    rw [hq]
    simp only [PyObj.asDict, UserModel.model_dump]
    rw [dictLookup_append]
    simp [hfree, PermissionEnum.ADMINISTRADOR, PyObj.isNone, dictLookup]

/-- C10 witness: a concrete datastore-error run still hands back the
mutated object and an admin-filtered query. -/
theorem C10_user_is_admin_witness :
    (ApiRepository.user_is_admin (fun _ => Failure (.str "down"))
        ⟨.none, []⟩).1.permission_level = PermissionEnum.ADMINISTRADOR ∧
    dictLookup ((ApiRepository.user_is_admin (fun _ => Failure (.str "down"))
        ⟨.none, []⟩).2.1.values.asDict) "permission_level"
      = some PermissionEnum.ADMINISTRADOR := by
  have h := C10_user_is_admin_mutates_permission
    (fun _ => Failure (.str "down")) ⟨.none, []⟩
  exact ⟨h.1, h.2 rfl⟩

end AccessControl
